import Mathlib

/-!
Shallow embedding of `src/src/ELF/Relocation.cpp` (LIEF, ELF relocation
entries) and proofs of the specification's claims about it.

Machine integers are modelled as `Nat` (for `uint32_t`/`uint64_t` fields)
and `Int` (for `int64_t` fields); the only bit-level operation the source
performs is masking the combined `r_info` field, modelled with `Nat.land`.
Exceptions (`not_found`, `not_implemented`) are modelled with `Except`.
Pointers to collaborator-owned symbols are modelled with `Option`.
-/

namespace LIEF
namespace ELF

/-- The `ARCH` machine enumeration (`e_machine`), restricted to the values
this translation unit dispatches on, plus `EM_MIPS` as a representative of
any architecture outside the supported dispatch set. -/
inductive ARCH where
  | EM_NONE
  | EM_386
  | EM_ARM
  | EM_AARCH64
  | EM_X86_64
  | EM_MIPS
  deriving DecidableEq, Repr

/-- Modelled from the spec: the `Symbol` collaborator object is not part of
this translation unit. We record only what this unit observes of a symbol:
an identity, its raw `name()`, and its `demangled_name()` where `none`
models `demangled_name()` throwing `not_supported`. -/
structure Symbol where
  ident : Nat
  name : String
  demangled : Option String
  deriving DecidableEq, Repr

/-- Raw 32-bit implicit-addend relocation record (`Elf32_Rel`).
`r_offset` is an `Elf32_Addr` (32-bit), `r_info` an `Elf32_Word` (32-bit). -/
structure Elf32_Rel where
  r_offset : Nat
  r_info : Nat
  deriving DecidableEq, Repr

/-- Raw 32-bit explicit-addend relocation record (`Elf32_Rela`); `r_addend`
is an `Elf32_Sword` (signed 32-bit). -/
structure Elf32_Rela where
  r_offset : Nat
  r_info : Nat
  r_addend : Int
  deriving DecidableEq, Repr

/-- Raw 64-bit implicit-addend relocation record (`Elf64_Rel`).
`r_offset` is an `Elf64_Addr` (64-bit), `r_info` an `Elf64_Xword` (64-bit). -/
structure Elf64_Rel where
  r_offset : Nat
  r_info : Nat
  deriving DecidableEq, Repr

/-- Raw 64-bit explicit-addend relocation record (`Elf64_Rela`); `r_addend`
is an `Elf64_Sxword` (signed 64-bit). -/
structure Elf64_Rela where
  r_offset : Nat
  r_info : Nat
  r_addend : Int
  deriving DecidableEq, Repr

/-- The in-memory `Relocation` entity: fields `address_` (`uint64_t`),
`type_` (`uint32_t`), `addend_` (`int64_t`), `isRela_` (`bool`),
`symbol_` (`Symbol*`, `none` = `nullptr`), `architecture_` (`ARCH`). -/
structure Relocation where
  address_ : Nat
  type_ : Nat
  addend_ : Int
  isRela_ : Bool
  symbol_ : Option Symbol
  architecture_ : ARCH
  deriving DecidableEq, Repr

namespace Relocation

/-- Default constructor `Relocation::Relocation(void)`. -/
def default : Relocation :=
  { address_ := 0, type_ := 0, addend_ := 0, isRela_ := false,
    symbol_ := none, architecture_ := ARCH.EM_NONE }

/-- Copy constructor `Relocation::Relocation(const Relocation&)`: copies
every scalar field but sets `symbol_` to `nullptr`. -/
def copy (other : Relocation) : Relocation :=
  { address_ := other.address_, type_ := other.type_,
    addend_ := other.addend_, isRela_ := other.isRela_,
    symbol_ := none, architecture_ := other.architecture_ }

/-- `Relocation::Relocation(const Elf32_Rel*)`: `type_` is
`r_info & 0xff`, addend 0, `isRela_` false, architecture `EM_NONE`. -/
def ofElf32Rel (header : Elf32_Rel) : Relocation :=
  { address_ := header.r_offset, type_ := Nat.land header.r_info 0xff,
    addend_ := 0, isRela_ := false, symbol_ := none,
    architecture_ := ARCH.EM_NONE }

/-- `Relocation::Relocation(const Elf32_Rela*)`: `type_` is
`r_info & 0xff`, addend copied, `isRela_` true, architecture `EM_NONE`. -/
def ofElf32Rela (header : Elf32_Rela) : Relocation :=
  { address_ := header.r_offset, type_ := Nat.land header.r_info 0xff,
    addend_ := header.r_addend, isRela_ := true, symbol_ := none,
    architecture_ := ARCH.EM_NONE }

/-- `Relocation::Relocation(const Elf64_Rel*)`: `type_` is
`r_info & 0xffffffff`, addend 0, `isRela_` false, architecture `EM_NONE`. -/
def ofElf64Rel (header : Elf64_Rel) : Relocation :=
  { address_ := header.r_offset, type_ := Nat.land header.r_info 0xffffffff,
    addend_ := 0, isRela_ := false, symbol_ := none,
    architecture_ := ARCH.EM_NONE }

/-- `Relocation::Relocation(const Elf64_Rela*)`: `type_` is
`r_info & 0xffffffff`, addend copied, `isRela_` true,
architecture `EM_NONE`. -/
def ofElf64Rela (header : Elf64_Rela) : Relocation :=
  { address_ := header.r_offset, type_ := Nat.land header.r_info 0xffffffff,
    addend_ := header.r_addend, isRela_ := true, symbol_ := none,
    architecture_ := ARCH.EM_NONE }

/-- `Relocation::Relocation(uint64_t, uint32_t, int64_t, bool)`: the
explicit-value constructor. -/
def ofValues (address : Nat) (type : Nat) (addend : Int) (isRela : Bool) :
    Relocation :=
  { address_ := address, type_ := type, addend_ := addend,
    isRela_ := isRela, symbol_ := none, architecture_ := ARCH.EM_NONE }

/-- Accessor `Relocation::address(void) const`. -/
def address (r : Relocation) : Nat := r.address_

/-- Accessor `Relocation::addend(void) const`. -/
def addend (r : Relocation) : Int := r.addend_

/-- Accessor `Relocation::type(void) const`. -/
def type (r : Relocation) : Nat := r.type_

/-- Accessor `Relocation::is_rela(void) const`. -/
def is_rela (r : Relocation) : Bool := r.isRela_

/-- Accessor `Relocation::is_rel(void) const`: `not isRela_`. -/
def is_rel (r : Relocation) : Bool := !r.isRela_

/-- Accessor `Relocation::architecture(void) const`. -/
def architecture (r : Relocation) : ARCH := r.architecture_

/-- Accessor `Relocation::has_symbol(void) const`: `symbol_ != nullptr`. -/
def has_symbol (r : Relocation) : Bool := r.symbol_.isSome

end Relocation

/-- The exceptions thrown by this translation unit (`LIEF/exception.hpp`):
`not_found` and `not_implemented`, each carrying its message string. -/
inductive LiefError where
  | not_found (msg : String)
  | not_implemented (msg : String)
  deriving DecidableEq, Repr

namespace Relocation

/-- Accessor `Relocation::symbol(void) const`: returns the bound symbol, or
throws `not_found("No symbol associated with this relocation")` when
`symbol_` is `nullptr`. -/
def symbol (r : Relocation) : Except LiefError Symbol :=
  match r.symbol_ with
  | some s => Except.ok s
  | none => Except.error
      (LiefError.not_found "No symbol associated with this relocation")

/-- Setter `Relocation::address(uint64_t)`. -/
def set_address (r : Relocation) (address : Nat) : Relocation :=
  { r with address_ := address }

/-- Setter `Relocation::addend(int64_t)`. -/
def set_addend (r : Relocation) (addend : Int) : Relocation :=
  { r with addend_ := addend }

/-- Setter `Relocation::type(uint32_t)`. -/
def set_type (r : Relocation) (type : Nat) : Relocation :=
  { r with type_ := type }

/-- Modelled from the spec: symbol binding (§4.3) is performed by the
symbol-table collaborator through a setter that lives outside this
translation unit; binding (or rebinding) simply overwrites the non-owning
reference. -/
def set_symbol (r : Relocation) (s : Symbol) : Relocation :=
  { r with symbol_ := some s }

end Relocation

/-- The per-architecture byte-size lookup tables of
`LIEF/ELF/RelocationSizes.hpp` (`relocation_x86_64_sizes`,
`relocation_i386_sizes`, `relocation_ARM_sizes`,
`relocation_AARCH64_sizes`), a header not in this translation unit. Each
table is a partial map from a 32-bit relocation-type code to a byte size;
`none` models the key being absent (`std::map::at` throwing
`std::out_of_range`). The development is parameterised over the tables'
contents. -/
structure SizeTables where
  x86_64 : Nat → Option Nat
  i386 : Nat → Option Nat
  ARM : Nat → Option Nat
  AARCH64 : Nat → Option Nat

/-- The `to_string` overloads of `LIEF/ELF/EnumToString.hpp` (not in this
translation unit): a name for each `ARCH` value and, per supported
architecture, a name for each relocation-type code (the source casts the
raw `uint32_t` to that architecture's `RELOC_*` enumeration before naming
it). The development is parameterised over these naming functions. -/
structure EnumNames where
  arch : ARCH → String
  x86_64 : Nat → String
  i386 : Nat → String
  ARM : Nat → String
  AARCH64 : Nat → String

namespace Relocation

/-- `Relocation::size(void) const`: dispatch on `architecture()`; for each
supported architecture look the type code up in that architecture's table,
returning the tabulated size, and on `std::out_of_range` throw
`not_implemented(to_string(arch) + " - " + to_string(type))`; for any
other architecture throw `not_implemented(to_string(arch))`. -/
def size (T : SizeTables) (N : EnumNames) (r : Relocation) :
    Except LiefError Nat :=
  match r.architecture with
  | ARCH.EM_X86_64 =>
      match T.x86_64 r.type with
      | some n => Except.ok n
      | none => Except.error (LiefError.not_implemented
          (N.arch r.architecture ++ " - " ++ N.x86_64 r.type))
  | ARCH.EM_386 =>
      match T.i386 r.type with
      | some n => Except.ok n
      | none => Except.error (LiefError.not_implemented
          (N.arch r.architecture ++ " - " ++ N.i386 r.type))
  | ARCH.EM_ARM =>
      match T.ARM r.type with
      | some n => Except.ok n
      | none => Except.error (LiefError.not_implemented
          (N.arch r.architecture ++ " - " ++ N.ARM r.type))
  | ARCH.EM_AARCH64 =>
      match T.AARCH64 r.type with
      | some n => Except.ok n
      | none => Except.error (LiefError.not_implemented
          (N.arch r.architecture ++ " - " ++ N.AARCH64 r.type))
  | _ => Except.error (LiefError.not_implemented (N.arch r.architecture))

end Relocation

/-- Whether an architecture is in `Relocation::size`'s supported dispatch
set (the four non-default cases of its switch). -/
def supported_arch : ARCH → Bool
  | ARCH.EM_X86_64 => true
  | ARCH.EM_386 => true
  | ARCH.EM_ARM => true
  | ARCH.EM_AARCH64 => true
  | _ => false

/-- The size table `Relocation::size` consults for a supported
architecture (`none` for architectures outside the dispatch set). -/
def arch_table (T : SizeTables) : ARCH → Option (Nat → Option Nat)
  | ARCH.EM_X86_64 => some T.x86_64
  | ARCH.EM_386 => some T.i386
  | ARCH.EM_ARM => some T.ARM
  | ARCH.EM_AARCH64 => some T.AARCH64
  | _ => none

/-- The relocation-type name `Relocation::size` and the stream formatter
use for a supported architecture (the `to_string` of the cast type code);
`""` for architectures outside the dispatch set, where no type name is
consulted. -/
def arch_type_name (N : EnumNames) : ARCH → Nat → String
  | ARCH.EM_X86_64, t => N.x86_64 t
  | ARCH.EM_386, t => N.i386 t
  | ARCH.EM_ARM, t => N.ARM t
  | ARCH.EM_AARCH64, t => N.AARCH64 t
  | _, _ => ""

/-- A value handed to the hashing visitor by `Relocation::accept`: the
visited `uint64_t`/`uint32_t` values, the visited `int64_t` addend, the
visited `ARCH` enumerator, and the visited bound `Symbol`. -/
inductive VisitValue where
  | vnat (n : Nat)
  | vint (i : Int)
  | varch (a : ARCH)
  | vsym (s : Symbol)
  deriving DecidableEq, Repr

namespace Relocation

/-- `Relocation::accept(Visitor&) const`: the ordered stream of values
handed to the visitor — `address()`, `addend()`, `type()`,
`architecture()`, and, only when `has_symbol()`, the bound symbol. The
`isRela_` flag is not visited. -/
def accept (r : Relocation) : List VisitValue :=
  [VisitValue.vnat r.address, VisitValue.vint r.addend,
   VisitValue.vnat r.type, VisitValue.varch r.architecture] ++
  (match r.symbol_ with
   | some s => [VisitValue.vsym s]
   | none => [])

/-- Modelled from the spec: `Hash::hash` (`LIEF/visitors/Hash.hpp`, not in
this translation unit) combines the values visited through `accept` in
their visitation order. We model the combined hash value as the visit
stream itself — a collision-free combiner, matching §4.4's "stricter
field-by-field comparison" reading; every consequence proved below that
does not depend on collision-freedom (in particular the counterexample
about the unvisited `isRela_` flag) holds for any combiner. -/
def hash (r : Relocation) : List VisitValue := r.accept

/-- `Relocation::operator==`: hash both sides and compare the hashes. -/
def eq (a b : Relocation) : Bool := a.hash = b.hash

/-- `Relocation::operator!=`: negation of `operator==`. -/
def ne (a b : Relocation) : Bool := !(eq a b)

end Relocation

/-- The three rendered fields of the single-line summary produced by
`operator<<(std::ostream&, const Relocation&)`: the hexadecimal address,
the relocation-type label, and the symbol display name. -/
structure RelocationLine where
  address_hex : String
  relocation_type : String
  symbol_name : String
  deriving DecidableEq, Repr

namespace Relocation

/-- `operator<<(std::ostream&, const Relocation&)` (field content; column
widths are presentation only): `symbol_name` is `""` when no symbol is
bound, otherwise the symbol's `demangled_name()` or, when demangling
throws `not_supported`, its raw `name()`; `relocation_type` is the
architecture's `to_string` of the cast type code for the four supported
architectures and `std::to_string` of the raw numeric code otherwise; the
address is printed in hexadecimal. The function is total: it never
throws. -/
def print (N : EnumNames) (r : Relocation) : RelocationLine :=
  let symbol_name :=
    match r.symbol_ with
    | some s =>
        match s.demangled with
        | some d => d
        | none => s.name
    | none => ""
  let relocation_type :=
    match r.architecture with
    | ARCH.EM_X86_64 => N.x86_64 r.type
    | ARCH.EM_386 => N.i386 r.type
    | ARCH.EM_ARM => N.ARM r.type
    | ARCH.EM_AARCH64 => N.AARCH64 r.type
    | _ => toString r.type
  { address_hex := String.mk (Nat.toDigits 16 r.address),
    relocation_type := relocation_type,
    symbol_name := symbol_name }

end Relocation

/-! Sample instances used by the witness theorems below. -/

/-- A sample size-table instance: the x86-64 table maps type 2 to size 8
and all other tables are empty. -/
def sampleTables : SizeTables :=
  { x86_64 := fun t => if t = 2 then some 8 else none,
    i386 := fun _ => none,
    ARM := fun _ => none,
    AARCH64 := fun _ => none }

/-- A sample naming instance for the `to_string` overloads. -/
def sampleNames : EnumNames :=
  { arch := fun a =>
      match a with
      | ARCH.EM_NONE => "NONE"
      | ARCH.EM_386 => "i386"
      | ARCH.EM_ARM => "ARM"
      | ARCH.EM_AARCH64 => "AARCH64"
      | ARCH.EM_X86_64 => "x86_64"
      | ARCH.EM_MIPS => "MIPS",
    x86_64 := fun t => if t = 2 then "PC32" else "UNKNOWN",
    i386 := fun _ => "UNKNOWN",
    ARM := fun _ => "UNKNOWN",
    AARCH64 := fun _ => "UNKNOWN" }

/-- Claim C1: decoding any of the four raw layouts yields an entity whose
accessors report: the record's `r_offset` as address; the info field
masked to its low 8 bits (32-bit layouts) or low 32 bits (64-bit layouts)
as type; `r_addend` (Rela layouts) or 0 (Rel layouts) as addend;
`is_rela` true exactly for the Rela layouts; and the `EM_NONE` sentinel
as architecture. -/
theorem C1_decode_roundtrip (h32 : Elf32_Rel) (h32a : Elf32_Rela)
    (h64 : Elf64_Rel) (h64a : Elf64_Rela) :
    ((Relocation.ofElf32Rel h32).address = h32.r_offset ∧
     (Relocation.ofElf32Rel h32).type = h32.r_info % 2 ^ 8 ∧
     (Relocation.ofElf32Rel h32).addend = 0 ∧
     (Relocation.ofElf32Rel h32).is_rela = false ∧
     (Relocation.ofElf32Rel h32).architecture = ARCH.EM_NONE) ∧
    ((Relocation.ofElf32Rela h32a).address = h32a.r_offset ∧
     (Relocation.ofElf32Rela h32a).type = h32a.r_info % 2 ^ 8 ∧
     (Relocation.ofElf32Rela h32a).addend = h32a.r_addend ∧
     (Relocation.ofElf32Rela h32a).is_rela = true ∧
     (Relocation.ofElf32Rela h32a).architecture = ARCH.EM_NONE) ∧
    ((Relocation.ofElf64Rel h64).address = h64.r_offset ∧
     (Relocation.ofElf64Rel h64).type = h64.r_info % 2 ^ 32 ∧
     (Relocation.ofElf64Rel h64).addend = 0 ∧
     (Relocation.ofElf64Rel h64).is_rela = false ∧
     (Relocation.ofElf64Rel h64).architecture = ARCH.EM_NONE) ∧
    ((Relocation.ofElf64Rela h64a).address = h64a.r_offset ∧
     (Relocation.ofElf64Rela h64a).type = h64a.r_info % 2 ^ 32 ∧
     (Relocation.ofElf64Rela h64a).addend = h64a.r_addend ∧
     (Relocation.ofElf64Rela h64a).is_rela = true ∧
     (Relocation.ofElf64Rela h64a).architecture = ARCH.EM_NONE) := by
  have m8 : ∀ n : Nat, Nat.land n 0xff = n % 2 ^ 8 := fun n => by
    simpa using Nat.and_pow_two_sub_one_eq_mod n 8
  have m32 : ∀ n : Nat, Nat.land n 0xffffffff = n % 2 ^ 32 := fun n => by
    simpa using Nat.and_pow_two_sub_one_eq_mod n 32
  refine ⟨⟨rfl, ?_, rfl, rfl, rfl⟩, ⟨rfl, ?_, rfl, rfl, rfl⟩,
          ⟨rfl, ?_, rfl, rfl, rfl⟩, ⟨rfl, ?_, rfl, rfl, rfl⟩⟩
  · exact m8 h32.r_info
  · exact m8 h32a.r_info
  · exact m32 h64.r_info
  · exact m32 h64a.r_info

/-- Claim C8: copy construction preserves address, type, addend,
has-addend flag and architecture, and never copies the symbol binding:
the copy's `has_symbol()` is false even when the original has a bound
symbol. -/
theorem C8_copy_drops_symbol (other : Relocation) :
    (Relocation.copy other).address = other.address ∧
    (Relocation.copy other).type = other.type ∧
    (Relocation.copy other).addend = other.addend ∧
    (Relocation.copy other).is_rela = other.is_rela ∧
    (Relocation.copy other).architecture = other.architecture ∧
    (Relocation.copy other).has_symbol = false :=
  ⟨rfl, rfl, rfl, rfl, rfl, rfl⟩

/-- Claim C9: on every entity, `is_rel()` is the boolean negation of
`is_rela()`: exactly one of the two layout predicates holds. -/
theorem C9_rel_rela_complementary (r : Relocation) :
    r.is_rel = !r.is_rela ∧ (r.is_rel = true ↔ r.is_rela = false) := by
  refine ⟨rfl, ?_⟩
  cases h : r.isRela_ <;> simp [Relocation.is_rel, Relocation.is_rela, h]

/-- Claim C10: each of the three mutators (`address(uint64_t)`,
`addend(int64_t)`, `type(uint32_t)`) updates only its own field and
leaves the other two of address/type/addend, the has-addend flag, the
architecture and the symbol binding unchanged. -/
theorem C10_setters_frame (r : Relocation) (a t : Nat) (d : Int) :
    ((r.set_address a).address = a ∧
     (r.set_address a).type = r.type ∧
     (r.set_address a).addend = r.addend ∧
     (r.set_address a).is_rela = r.is_rela ∧
     (r.set_address a).architecture = r.architecture ∧
     (r.set_address a).symbol_ = r.symbol_) ∧
    ((r.set_type t).type = t ∧
     (r.set_type t).address = r.address ∧
     (r.set_type t).addend = r.addend ∧
     (r.set_type t).is_rela = r.is_rela ∧
     (r.set_type t).architecture = r.architecture ∧
     (r.set_type t).symbol_ = r.symbol_) ∧
    ((r.set_addend d).addend = d ∧
     (r.set_addend d).address = r.address ∧
     (r.set_addend d).type = r.type ∧
     (r.set_addend d).is_rela = r.is_rela ∧
     (r.set_addend d).architecture = r.architecture ∧
     (r.set_addend d).symbol_ = r.symbol_) :=
  ⟨⟨rfl, rfl, rfl, rfl, rfl, rfl⟩, ⟨rfl, rfl, rfl, rfl, rfl, rfl⟩,
   ⟨rfl, rfl, rfl, rfl, rfl, rfl⟩⟩

/-- Claim C2: for every table instance, naming instance and entity, size
resolution returns the tabulated size exactly when the architecture is in
the supported dispatch set and the type is a key of that architecture's
table; when the architecture is supported but the type is absent it fails
with `not_implemented` naming both the architecture and the type; when
the architecture is outside the supported set it fails with
`not_implemented` naming only the architecture. Being `Except`-valued, it
never partially succeeds. -/
theorem C2_size_resolution (T : SizeTables) (N : EnumNames)
    (r : Relocation) :
    (∀ tbl, arch_table T r.architecture = some tbl →
      (∀ n, tbl r.type = some n → r.size T N = Except.ok n) ∧
      (tbl r.type = none → r.size T N = Except.error
        (LiefError.not_implemented (N.arch r.architecture ++ " - " ++
          arch_type_name N r.architecture r.type)))) ∧
    (arch_table T r.architecture = none → r.size T N = Except.error
      (LiefError.not_implemented (N.arch r.architecture))) := by
  obtain ⟨a, t, d, ir, s, arch⟩ := r
  cases arch with
  | EM_X86_64 =>
      refine ⟨fun tbl htbl => ?_, fun hnone => ?_⟩
      · have htbl' : tbl = T.x86_64 := by
          simpa [arch_table, Relocation.architecture, eq_comm] using htbl
        subst htbl'
        refine ⟨fun n hn => ?_, fun hn => ?_⟩ <;>
          simp_all [Relocation.size, Relocation.architecture,
            Relocation.type, arch_type_name]
      · simp [arch_table, Relocation.architecture] at hnone
  | EM_386 =>
      refine ⟨fun tbl htbl => ?_, fun hnone => ?_⟩
      · have htbl' : tbl = T.i386 := by
          simpa [arch_table, Relocation.architecture, eq_comm] using htbl
        subst htbl'
        refine ⟨fun n hn => ?_, fun hn => ?_⟩ <;>
          simp_all [Relocation.size, Relocation.architecture,
            Relocation.type, arch_type_name]
      · simp [arch_table, Relocation.architecture] at hnone
  | EM_ARM =>
      refine ⟨fun tbl htbl => ?_, fun hnone => ?_⟩
      · have htbl' : tbl = T.ARM := by
          simpa [arch_table, Relocation.architecture, eq_comm] using htbl
        subst htbl'
        refine ⟨fun n hn => ?_, fun hn => ?_⟩ <;>
          simp_all [Relocation.size, Relocation.architecture,
            Relocation.type, arch_type_name]
      · simp [arch_table, Relocation.architecture] at hnone
  | EM_AARCH64 =>
      refine ⟨fun tbl htbl => ?_, fun hnone => ?_⟩
      · have htbl' : tbl = T.AARCH64 := by
          simpa [arch_table, Relocation.architecture, eq_comm] using htbl
        subst htbl'
        refine ⟨fun n hn => ?_, fun hn => ?_⟩ <;>
          simp_all [Relocation.size, Relocation.architecture,
            Relocation.type, arch_type_name]
      · simp [arch_table, Relocation.architecture] at hnone
  | EM_NONE =>
      refine ⟨fun tbl htbl => ?_, fun _ => rfl⟩
      simp [arch_table, Relocation.architecture] at htbl
  | EM_MIPS =>
      refine ⟨fun tbl htbl => ?_, fun _ => rfl⟩
      simp [arch_table, Relocation.architecture] at htbl

/-- Witness for C2 at a concrete table, naming instance and entity: the
x86-64 table of `sampleTables` maps type 2 to size 8, and size resolution
returns 8 on an x86-64 entity of type 2. -/
theorem C2_size_resolution_witness :
    Relocation.size sampleTables sampleNames
      { address_ := 4096, type_ := 2, addend_ := -8, isRela_ := true,
        symbol_ := none, architecture_ := ARCH.EM_X86_64 } =
      Except.ok 8 := by
  have h := C2_size_resolution sampleTables sampleNames
    { address_ := 4096, type_ := 2, addend_ := -8, isRela_ := true,
      symbol_ := none, architecture_ := ARCH.EM_X86_64 }
  exact (h.1 sampleTables.x86_64 rfl).1 8 rfl

/-- Claim C3: an entity built by the explicit-value constructor from
`(address, type, addend, isRela)` equals (hence is behaviorally identical
to, accessor by accessor) the entity decoded from the matching raw
layout carrying the same field values — the 64-bit layout whenever the
type fits in 32 bits, and additionally the 32-bit layout whenever it fits
in 8 bits — and its architecture is the `EM_NONE` sentinel. A Rel-layout
record carries no addend field, so the implicit-addend match requires
addend 0. -/
theorem C3_explicit_matches_decoded (address type : Nat) (addend : Int)
    (isRela : Bool) (htype : type < 2 ^ 32)
    (haddend : isRela = false → addend = 0) :
    (Relocation.ofValues address type addend isRela =
      (if isRela then Relocation.ofElf64Rela ⟨address, type, addend⟩
       else Relocation.ofElf64Rel ⟨address, type⟩)) ∧
    (type < 2 ^ 8 →
      Relocation.ofValues address type addend isRela =
        (if isRela then Relocation.ofElf32Rela ⟨address, type, addend⟩
         else Relocation.ofElf32Rel ⟨address, type⟩)) ∧
    (Relocation.ofValues address type addend isRela).architecture =
      ARCH.EM_NONE := by
  have m32 : Nat.land type 0xffffffff = type := by
    have h1 : Nat.land type 0xffffffff = type % 2 ^ 32 := by
      simpa using Nat.and_pow_two_sub_one_eq_mod type 32
    rw [h1, Nat.mod_eq_of_lt htype]
  refine ⟨?_, fun h8 => ?_, rfl⟩
  · cases isRela with
    | false =>
        simp [Relocation.ofValues, Relocation.ofElf64Rel, m32,
          haddend rfl]
    | true => simp [Relocation.ofValues, Relocation.ofElf64Rela, m32]
  · have m8 : Nat.land type 0xff = type := by
      have h2 : Nat.land type 0xff = type % 2 ^ 8 := by
        simpa using Nat.and_pow_two_sub_one_eq_mod type 8
      rw [h2, Nat.mod_eq_of_lt h8]
    cases isRela with
    | false =>
        simp [Relocation.ofValues, Relocation.ofElf32Rel, m8,
          haddend rfl]
    | true => simp [Relocation.ofValues, Relocation.ofElf32Rela, m8]

/-- Witness for C3 at address 0x1000, type 2, addend -8, explicit-addend
layout: the explicit-value constructor coincides with decoding the
matching `Elf64_Rela` and `Elf32_Rela` records. -/
theorem C3_explicit_matches_decoded_witness :
    Relocation.ofValues 4096 2 (-8) true =
      Relocation.ofElf64Rela ⟨4096, 2, -8⟩ ∧
    Relocation.ofValues 4096 2 (-8) true =
      Relocation.ofElf32Rela ⟨4096, 2, -8⟩ := by
  have h := C3_explicit_matches_decoded 4096 2 (-8) true (by norm_num)
    (by intro h; cases h)
  refine ⟨?_, ?_⟩
  · simpa using h.1
  · simpa using h.2.1 (by norm_num)

/-- Claim C4: `operator==` holds exactly when the structural hashes of the
two sides agree, and the hash depends only on the fields `accept` visits —
address, addend, type, architecture and the bound symbol (when present),
in that fixed order — so two entities with identical such fields and
identical symbol binding hash identically regardless of how they were
constructed. -/
theorem C4_hash_equality (a b : Relocation) :
    (Relocation.eq a b = true ↔ a.hash = b.hash) ∧
    ((a.address = b.address ∧ a.addend = b.addend ∧ a.type = b.type ∧
      a.architecture = b.architecture ∧ a.symbol_ = b.symbol_) →
      a.hash = b.hash) := by
  constructor
  · simp [Relocation.eq]
  · rintro ⟨h1, h2, h3, h4, h5⟩
    simp only [Relocation.hash, Relocation.accept, h5]
    exact congrArg₂ _ (by
      simp only [List.cons.injEq, VisitValue.vnat.injEq,
        VisitValue.vint.injEq, VisitValue.varch.injEq, and_true]
      exact ⟨h1, h2, h3, h4⟩) rfl

/-- Witness for C4: an entity built by the explicit-value constructor and
an entity decoded from an `Elf64_Rela` record with the same field values
hash identically, and `operator==` agrees with hash equality on them. -/
theorem C4_hash_equality_witness :
    Relocation.hash (Relocation.ofValues 4096 2 (-8) true) =
      Relocation.hash (Relocation.ofElf64Rela ⟨4096, 2, -8⟩) ∧
    Relocation.eq (Relocation.ofValues 4096 2 (-8) true)
      (Relocation.ofElf64Rela ⟨4096, 2, -8⟩) = true := by
  have h := C4_hash_equality (Relocation.ofValues 4096 2 (-8) true)
    (Relocation.ofElf64Rela ⟨4096, 2, -8⟩)
  have hfields := h.2 ⟨rfl, rfl, by decide, rfl, rfl⟩
  exact ⟨hfields, h.1.mpr hfields⟩

/-- Claim C5, counterexample: two entities built with identical address,
type and addend that differ only in the has-addend flag still compare
equal under `operator==`, because `accept` never visits the `isRela_`
flag — so changing only the has-addend flag does not break equality,
contrary to the claim. This holds for any hash combiner, since the two
visit streams are identical. -/
theorem C5_counterexample :
    Relocation.eq (Relocation.ofValues 4096 2 (-8) true)
      (Relocation.ofValues 4096 2 (-8) false) = true ∧
    (Relocation.ofValues 4096 2 (-8) true).is_rela ≠
      (Relocation.ofValues 4096 2 (-8) false).is_rela := by
  constructor
  · decide
  · decide

/-- Claim C5 as amended: two entities are equal exactly when they agree on
address, addend, type, architecture and symbol binding; changing any one
of those five fields breaks equality, while the has-addend flag does not
participate in equality at all. -/
theorem C5_amended_equality (a b : Relocation) :
    Relocation.eq a b = true ↔
      (a.address = b.address ∧ a.addend = b.addend ∧ a.type = b.type ∧
       a.architecture = b.architecture ∧ a.symbol_ = b.symbol_) := by
  obtain ⟨x1, x2, x3, x4, xs, x6⟩ := a
  obtain ⟨y1, y2, y3, y4, ys, y6⟩ := b
  cases xs <;> cases ys <;>
    simp [Relocation.eq, Relocation.hash, Relocation.accept,
      Relocation.address, Relocation.addend, Relocation.type,
      Relocation.architecture]

/-- Witness for C5's amended statement: on two concrete entities agreeing
on the five identity fields (one of them carrying the opposite has-addend
flag), the amended equivalence yields equality. -/
theorem C5_amended_equality_witness :
    Relocation.eq (Relocation.ofValues 7 3 5 false)
      (Relocation.ofValues 7 3 5 true) = true :=
  (C5_amended_equality (Relocation.ofValues 7 3 5 false)
    (Relocation.ofValues 7 3 5 true)).mpr ⟨rfl, rfl, rfl, rfl, rfl⟩

/-- Claim C6: every construction path (default, copy, the four decoding
constructors, the explicit-value constructor) leaves `has_symbol()`
false; reading the symbol while none is bound fails with
`not_found("No symbol associated with this relocation")` and a successful
read is only possible when a symbol is bound; after an explicit bind,
`has_symbol()` is true and the accessor returns exactly the bound
symbol. -/
theorem C6_symbol_binding :
    (Relocation.default.has_symbol = false) ∧
    (∀ o : Relocation, (Relocation.copy o).has_symbol = false) ∧
    (∀ h : Elf32_Rel, (Relocation.ofElf32Rel h).has_symbol = false) ∧
    (∀ h : Elf32_Rela, (Relocation.ofElf32Rela h).has_symbol = false) ∧
    (∀ h : Elf64_Rel, (Relocation.ofElf64Rel h).has_symbol = false) ∧
    (∀ h : Elf64_Rela, (Relocation.ofElf64Rela h).has_symbol = false) ∧
    (∀ (a t : Nat) (d : Int) (ir : Bool),
      (Relocation.ofValues a t d ir).has_symbol = false) ∧
    (∀ r : Relocation, r.has_symbol = false → r.symbol = Except.error
      (LiefError.not_found "No symbol associated with this relocation")) ∧
    (∀ (r : Relocation) (s : Symbol), (r.set_symbol s).has_symbol = true ∧
      (r.set_symbol s).symbol = Except.ok s) ∧
    (∀ (r : Relocation) (s : Symbol), r.symbol = Except.ok s →
      r.has_symbol = true) := by
  refine ⟨rfl, fun _ => rfl, fun _ => rfl, fun _ => rfl, fun _ => rfl,
    fun _ => rfl, fun _ _ _ _ => rfl, ?_, fun r s => ⟨rfl, rfl⟩, ?_⟩
  · intro r hr
    obtain ⟨a, t, d, ir, sym, arch⟩ := r
    cases sym with
    | none => rfl
    | some s => simp [Relocation.has_symbol] at hr
  · intro r s hr
    obtain ⟨a, t, d, ir, sym, arch⟩ := r
    cases sym with
    | none => simp [Relocation.symbol] at hr
    | some s0 => rfl

/-- Witness for C6: on the default-constructed entity, `has_symbol()` is
false and reading the symbol fails with `not_found`; after binding a
concrete symbol, the accessor returns it. -/
theorem C6_symbol_binding_witness :
    Relocation.default.symbol = Except.error
      (LiefError.not_found "No symbol associated with this relocation") ∧
    (Relocation.default.set_symbol ⟨1, "main", none⟩).symbol =
      Except.ok ⟨1, "main", none⟩ := by
  have h := C6_symbol_binding
  exact ⟨h.2.2.2.2.2.2.2.1 Relocation.default rfl,
    (h.2.2.2.2.2.2.2.2.1 Relocation.default ⟨1, "main", none⟩).2⟩

/-- Claim C7: producing the single-line summary is total (the formatter
returns a `RelocationLine` for every entity); when the architecture is
outside the supported dispatch set the type field is the raw numeric
type code; when no symbol is bound the symbol field is the empty string;
when a symbol is bound its demangled name is preferred, falling back to
the raw name when demangling is unsupported for that symbol. -/
theorem C7_print_graceful (N : EnumNames) (r : Relocation) :
    (supported_arch r.architecture = false →
      (r.print N).relocation_type = toString r.type) ∧
    (r.has_symbol = false → (r.print N).symbol_name = "") ∧
    (∀ s, r.symbol_ = some s →
      (∀ d, s.demangled = some d → (r.print N).symbol_name = d) ∧
      (s.demangled = none → (r.print N).symbol_name = s.name)) := by
  obtain ⟨a, t, d, ir, sym, arch⟩ := r
  refine ⟨?_, ?_, ?_⟩
  · intro h
    cases arch <;>
      simp_all [supported_arch, Relocation.print, Relocation.architecture,
        Relocation.type]
  · intro h
    cases sym with
    | none => rfl
    | some s => simp [Relocation.has_symbol] at h
  · intro s hs
    cases sym with
    | none => cases hs
    | some s0 =>
        obtain rfl : s0 = s := by simpa using hs
        constructor
        · intro dm hdm
          simp [Relocation.print, hdm]
        · intro hdm
          simp [Relocation.print, hdm]

/-- Witness for C7: a concrete entity with the unsupported `EM_MIPS`
architecture and no bound symbol renders its raw numeric type code and an
empty symbol field; a bound symbol without demangling support renders its
raw name. -/
theorem C7_print_graceful_witness :
    (Relocation.print sampleNames
      { address_ := 16, type_ := 5, addend_ := 0, isRela_ := false,
        symbol_ := none, architecture_ := ARCH.EM_MIPS }).relocation_type =
      toString (5 : Nat) ∧
    (Relocation.print sampleNames
      { address_ := 16, type_ := 5, addend_ := 0, isRela_ := false,
        symbol_ := none, architecture_ := ARCH.EM_MIPS }).symbol_name =
      "" ∧
    (Relocation.print sampleNames
      { address_ := 16, type_ := 5, addend_ := 0, isRela_ := false,
        symbol_ := some ⟨1, "main", none⟩,
        architecture_ := ARCH.EM_MIPS }).symbol_name = "main" := by
  refine ⟨?_, ?_, ?_⟩
  · exact (C7_print_graceful sampleNames
      { address_ := 16, type_ := 5, addend_ := 0, isRela_ := false,
        symbol_ := none, architecture_ := ARCH.EM_MIPS }).1 rfl
  · exact (C7_print_graceful sampleNames
      { address_ := 16, type_ := 5, addend_ := 0, isRela_ := false,
        symbol_ := none, architecture_ := ARCH.EM_MIPS }).2.1 rfl
  · exact ((C7_print_graceful sampleNames
      { address_ := 16, type_ := 5, addend_ := 0, isRela_ := false,
        symbol_ := some ⟨1, "main", none⟩,
        architecture_ := ARCH.EM_MIPS }).2.2 ⟨1, "main", none⟩ rfl).2 rfl

end ELF
end LIEF
